import Mathlib

/-!
Verification of the reputation and incentive subsystem of the Xdest-online
backend (Test-Karma calculation, Offer-Redemption obligation lifecycle,
vote/rating primitives, leaderboard aggregation).

The definitions below are a shallow embedding of the Python/SQLAlchemy code:
  * `backend/app/dependencies.py` (`calculate_test_karma`, `KARMA_LIMIT`)
  * `backend/app/routers/api.py` (`_fulfill_offer_obligation`,
    `check_and_apply_karma_penalties`, `claim_offer`, `get_leaderboard`,
    `vote_issue`, `vote_response`, `vote_post`, `rate_project`, `rate_user`)
  * `backend/app/models/*.py` (the column schemas, including nullability and
    defaults).

The relational store is modelled as lists of records; SQL `NULL` becomes
`Option`; `datetime` becomes a `Nat` timestamp (seconds); SQL comparison
semantics on nullable columns (a comparison with NULL never matches) are
translated with `Option` matching.  Counter columns are Python ints,
modelled as `Int`; `count(...)` queries return `Nat`.
-/

namespace Xdest

/-- Timestamps: `datetime.utcnow()` values, in seconds. -/
abbrev Time := Nat

/-- `timedelta(days=7)` from `claim_offer`, in seconds. -/
def sevenDays : Time := 7 * 24 * 60 * 60

/-- The `source_platform` tag of system-generated welcome issues
(`"Xdest-System"` in `api.py` and `dependencies.py`). -/
def sysPlatform : String := "Xdest-System"

/-- `users` table (`models/user.py`): only the columns the reputation
subsystem reads. -/
structure UserRec where
  id : Nat
  username : String
  deriving DecidableEq, Repr

/-- `projects` table (`models/project.py`): `user_id` is `nullable=False`. -/
structure ProjectRec where
  id : Nat
  user_id : Nat
  deriving DecidableEq, Repr

/-- `issues` table (`models/issue.py`): `project_id` and `user_id` are
nullable (project or author may be deleted); `source_platform` defaults to
`"Xdest"`; the counters default to 0.  NOTE: the model defines NO
`downvote_count` column (relevant to the vote endpoints). -/
structure IssueRec where
  id : Nat
  project_id : Option Nat
  user_id : Option Nat
  source_platform : String
  helpful_count : Int
  github_reactions : Int
  github_negative_reactions : Int
  deriving DecidableEq, Repr

/-- `issue_responses` table (`models/issue.py`): `user_id` nullable,
`helpful_count` and `is_solution` integer columns defaulting to 0.
NOTE: no `downvote_count` column. -/
structure ResponseRec where
  id : Nat
  user_id : Option Nat
  helpful_count : Int
  is_solution : Int
  deriving DecidableEq, Repr

/-- `issue_votes` table (`models/issue.py`): columns are exactly
`id, issue_id, user_id, created_at` — there is NO `vote_type` column. -/
structure IssueVoteRec where
  issue_id : Nat
  user_id : Nat
  deriving DecidableEq, Repr

/-- `response_votes` table (`models/issue.py`): columns are exactly
`id, response_id, user_id, created_at` — there is NO `vote_type` column. -/
structure ResponseVoteRec where
  response_id : Nat
  user_id : Nat
  deriving DecidableEq, Repr

/-- Vote direction, the two values `vote_issue`/`vote_post`/... accept
after validating the request body (`vote_type in ("upvote", "downvote")`). -/
inductive VoteType where
  | upvote
  | downvote
  deriving DecidableEq, Repr

/-- `posts` table (`models/post.py`): here both counters exist. -/
structure PostRec where
  id : Nat
  user_id : Nat
  upvote_count : Int
  downvote_count : Int
  deriving DecidableEq, Repr

/-- `post_votes` table (`models/post.py`): has a `vote_type` column. -/
structure PostVoteRec where
  post_id : Nat
  user_id : Nat
  vote_type : VoteType
  deriving DecidableEq, Repr

/-- `user_ratings` table (`models/rating.py`), unique on
`(rated_user_id, rater_user_id)`. -/
structure UserRatingRec where
  rated_user_id : Nat
  rater_user_id : Nat
  stars : Int
  updated_at : Time
  deriving DecidableEq, Repr

/-- `project_ratings` table (`models/rating.py`), unique on
`(project_id, user_id)`. -/
structure ProjectRatingRec where
  project_id : Nat
  user_id : Nat
  stars : Int
  updated_at : Time
  deriving DecidableEq, Repr

/-- `offers` table (`models/offer.py`): `max_redemptions` nullable
(`None` = unlimited), `current_redemptions` defaults to 0,
`valid_until` nullable, `valid_from` defaults to now. -/
structure OfferRec where
  id : Nat
  project_id : Nat
  max_redemptions : Option Int
  current_redemptions : Int
  valid_from : Time
  valid_until : Option Time
  is_active : Bool
  deriving DecidableEq, Repr

/-- `offer_redemptions` table (`models/offer_redemption.py`). -/
structure RedemptionRec where
  offer_id : Nat
  user_id : Nat
  project_id : Nat
  claimed_at : Time
  deadline : Time
  fulfilled : Bool
  fulfilled_at : Option Time
  karma_penalty_applied : Bool
  karma_penalty_reversed : Bool
  deriving DecidableEq, Repr

/-- The relational store: one list per table used by the subsystem. -/
structure DB where
  users : List UserRec
  projects : List ProjectRec
  issues : List IssueRec
  responses : List ResponseRec
  issue_votes : List IssueVoteRec
  response_votes : List ResponseVoteRec
  posts : List PostRec
  post_votes : List PostVoteRec
  user_ratings : List UserRatingRec
  project_ratings : List ProjectRatingRec
  offers : List OfferRec
  redemptions : List RedemptionRec
  deriving DecidableEq, Repr

/-! ## Karma calculator (`dependencies.py`) -/

/-- `KARMA_LIMIT = -5` (`dependencies.py`). -/
def KARMA_LIMIT : Int := -5

/-- The `issues_given` query of `calculate_test_karma`:
`count(Issue.id)` over `Issue JOIN Project ON Issue.project_id = Project.id`
filtered by `Issue.user_id == user_id`, `Project.user_id != user_id`,
`Issue.source_platform != "Xdest-System"`.  The inner join is modelled as a
sum over issues of the number of matching project rows (a NULL
`project_id` matches no project, as in SQL). -/
def issuesGiven (db : DB) (uid : Nat) : Nat :=
  (db.issues.map (fun i =>
    if i.user_id == some uid && i.source_platform != sysPlatform then
      db.projects.countP (fun p => i.project_id == some p.id && p.user_id != uid)
    else 0)).sum

/-- The `issues_received` query of `calculate_test_karma`: same join,
filtered by `Project.user_id == user_id`, `Issue.user_id != user_id`
(NULL author matches nothing, as in SQL), non-system. -/
def issuesReceived (db : DB) (uid : Nat) : Nat :=
  (db.issues.map (fun i =>
    if i.user_id.any (fun a => a != uid) && i.source_platform != sysPlatform then
      db.projects.countP (fun p => i.project_id == some p.id && p.user_id == uid)
    else 0)).sum

/-- The `offer_penalties` query: redemptions of this user with
`karma_penalty_applied == True` and `karma_penalty_reversed == False`. -/
def offerPenalties (db : DB) (uid : Nat) : Nat :=
  db.redemptions.countP (fun r =>
    r.user_id == uid && r.karma_penalty_applied && !r.karma_penalty_reversed)

/-- The `pending_count` query: redemptions of this user with
`fulfilled == False`. -/
def pendingObligations (db : DB) (uid : Nat) : Nat :=
  db.redemptions.countP (fun r => r.user_id == uid && !r.fulfilled)

/-- The dict returned by `calculate_test_karma`. -/
structure KarmaResult where
  given : Nat
  received : Nat
  offer_penalties : Nat
  pending_obligations : Nat
  karma : Int
  is_blocked : Bool
  limit : Int
  deriving DecidableEq, Repr

/-- `calculate_test_karma(db, user_id)` (`dependencies.py`): a pure read
combining the four count queries; `karma = given - received - penalties`,
`is_blocked = karma < KARMA_LIMIT`. -/
def calculate_test_karma (db : DB) (uid : Nat) : KarmaResult :=
  let g := issuesGiven db uid
  let r := issuesReceived db uid
  let pen := offerPenalties db uid
  let pending := pendingObligations db uid
  let karma : Int := (g : Int) - (r : Int) - (pen : Int)
  { given := g
    received := r
    offer_penalties := pen
    pending_obligations := pending
    karma := karma
    is_blocked := karma < KARMA_LIMIT
    limit := KARMA_LIMIT }

/-! ## Leaderboard aggregator (`api.py`, `get_leaderboard`) -/

/-- `sum(IssueResponse.is_solution)` grouped by `User.id` (outer join):
responses with NULL `user_id` join no user. -/
def solutionsMarked (db : DB) (uid : Nat) : Int :=
  ((db.responses.filter (fun r => r.user_id == some uid)).map (·.is_solution)).sum

/-- `sum(IssueResponse.helpful_count)` grouped by `User.id`. -/
def responseHelpful (db : DB) (uid : Nat) : Int :=
  ((db.responses.filter (fun r => r.user_id == some uid)).map (·.helpful_count)).sum

/-- `count(IssueResponse.id)` grouped by `User.id`. -/
def totalResponses (db : DB) (uid : Nat) : Nat :=
  db.responses.countP (fun r => r.user_id == some uid)

/-- `sum(Issue.helpful_count)` grouped by `User.id` — note this sums over
ALL issues authored by the user, system-tagged ones included. -/
def issueHelpful (db : DB) (uid : Nat) : Int :=
  ((db.issues.filter (fun i => i.user_id == some uid)).map (·.helpful_count)).sum

/-- `sum(Issue.github_reactions)` grouped by `User.id`. -/
def githubPositive (db : DB) (uid : Nat) : Int :=
  ((db.issues.filter (fun i => i.user_id == some uid)).map (·.github_reactions)).sum

/-- `sum(Issue.github_negative_reactions)` grouped by `User.id`. -/
def githubNegative (db : DB) (uid : Nat) : Int :=
  ((db.issues.filter (fun i => i.user_id == some uid)).map (·.github_negative_reactions)).sum

/-- `count(Issue.id)` grouped by `User.id`. -/
def totalIssues (db : DB) (uid : Nat) : Nat :=
  db.issues.countP (fun i => i.user_id == some uid)

/-- `count(UserRating.id)` with `stars == 5` grouped by `rated_user_id`. -/
def fiveStarRatings (db : DB) (uid : Nat) : Nat :=
  db.user_ratings.countP (fun x => x.rated_user_id == uid && x.stars == 5)

/-- Step 5 of `get_leaderboard`: the unified +1/−1 total. -/
def totalScore (db : DB) (uid : Nat) : Int :=
  solutionsMarked db uid
    + responseHelpful db uid
    + issueHelpful db uid
    + githubPositive db uid
    - githubNegative db uid
    + (fiveStarRatings db uid : Int)
    + (issuesGiven db uid : Int)
    + (issuesReceived db uid : Int)
    - (offerPenalties db uid : Int)

/-- The inclusion test of `get_leaderboard`:
`total > 0 or total_issues > 0 or total_responses > 0 or issues_given > 0
or issues_received > 0`. -/
def lbIncluded (db : DB) (uid : Nat) : Bool :=
  totalScore db uid > 0 || totalIssues db uid > 0 || totalResponses db uid > 0
    || issuesGiven db uid > 0 || issuesReceived db uid > 0

/-- One leaderboard entry (only the fields the claims speak about). -/
structure LBEntry where
  user_id : Nat
  total_score : Int
  rank : Nat
  deriving DecidableEq, Repr

/-- Descending order on `total_score`, the sort key of
`leaderboard.sort(key=..., reverse=True)`. -/
def lbGe (a b : LBEntry) : Prop := b.total_score ≤ a.total_score

instance : DecidableRel lbGe := fun a b =>
  inferInstanceAs (Decidable (b.total_score ≤ a.total_score))

instance : IsTotal LBEntry lbGe := ⟨fun a b => le_total b.total_score a.total_score⟩

instance : IsTrans LBEntry lbGe := ⟨fun _ _ _ h h' => le_trans h' h⟩

/-- The list built by steps 1–5 of `get_leaderboard` before sorting: the
`user_scores` dict holds an entry for every user (the first grouped query
outer-joins all users), and only those passing the inclusion test are
appended to `leaderboard`.  Rank is stamped later. -/
def leaderboardFull (db : DB) : List LBEntry :=
  (db.users.filter (fun u => lbIncluded db u.id)).map
    (fun u => { user_id := u.id, total_score := totalScore db u.id, rank := 0 })

/-- `for rank, entry in enumerate(leaderboard, 1): entry["rank"] = rank`. -/
def stampRanks : Nat → List LBEntry → List LBEntry
  | _, [] => []
  | n, e :: es => { e with rank := n } :: stampRanks (n + 1) es

/-- `get_leaderboard` (`api.py`): build, filter, stable-sort descending by
`total_score` (Python's `list.sort` is stable; modelled by insertion sort,
which is also stable), truncate to 50, stamp 1-based ranks. -/
def get_leaderboard (db : DB) : List LBEntry :=
  stampRanks 1 ((List.insertionSort lbGe (leaderboardFull db)).take 50)

/-! ## Offers (`models/offer.py`, `api.py`) -/

/-- `Offer.is_valid` (`models/offer.py`): `not is_active → False`;
`valid_until and now > valid_until → False` (a datetime is always truthy,
so only `None` skips the check); `max_redemptions and current_redemptions
>= max_redemptions → False` — Python truthiness: `None` OR `0` both skip
the cap check.  `valid_from` is never read. -/
def offerIsValid (o : OfferRec) (now : Time) : Bool :=
  if !o.is_active then false
  else if (match o.valid_until with
           | some vu => decide (now > vu)
           | none => false) then false
  else if (match o.max_redemptions with
           | some m => m != 0 && decide (o.current_redemptions ≥ m)
           | none => false) then false
  else true

/-- Errors raised (HTTPException) or returned as error JSON by the
endpoints. -/
inductive ApiErr where
  | notFound
  | offerNotAvailable
  | ownProjectOffer
  | selfVote
  | selfRate
  | invalidStars
  /-- Python `TypeError`: constructing a model object with a keyword that
  is not a mapped column. -/
  | pyTypeError
  /-- Python `AttributeError`: reading an attribute the model class does
  not define. -/
  | pyAttributeError
  deriving DecidableEq, Repr

/-- Result payload of `claim_offer`. -/
inductive ClaimOutcome where
  | error (e : ApiErr)
  /-- `{"status": "already_claimed", "deadline": ..., "fulfilled": ...}` -/
  | alreadyClaimed (deadline : Time) (fulfilled : Bool)
  /-- `{"status": "claimed", "deadline": ...}` -/
  | claimed (deadline : Time)
  deriving DecidableEq, Repr

/-- The fresh redemption created by `claim_offer`: explicit kwargs plus the
column defaults of `models/offer_redemption.py` (`fulfilled=False`, no
`fulfilled_at`, both penalty flags `False`). -/
def newRedemption (offer_id user_id project_id : Nat) (now : Time) : RedemptionRec :=
  { offer_id := offer_id
    user_id := user_id
    project_id := project_id
    claimed_at := now
    deadline := now + sevenDays
    fulfilled := false
    fulfilled_at := none
    karma_penalty_applied := false
    karma_penalty_reversed := false }

/-- `claim_offer` (`api.py`): look up the offer (404 if absent); reject if
`not offer.is_valid`; if a redemption for `(offer_id, user.id)` exists,
return its state without touching anything; reject the project owner;
otherwise insert the new redemption and increment
`offer.current_redemptions` (`(current or 0) + 1`, which equals
`current + 1` on the non-NULL integer column).  Error outcomes leave the
store unchanged (nothing was committed). -/
def claim_offer (db : DB) (now : Time) (offer_id user_id : Nat) :
    DB × ClaimOutcome :=
  match db.offers.find? (fun o => o.id == offer_id) with
  | none => (db, .error .notFound)
  | some offer =>
    if !offerIsValid offer now then (db, .error .offerNotAvailable)
    else
      match db.redemptions.find? (fun r =>
          r.offer_id == offer_id && r.user_id == user_id) with
      | some existing => (db, .alreadyClaimed existing.deadline existing.fulfilled)
      | none =>
        match db.projects.find? (fun p => p.id == offer.project_id) with
        | none => (db, .error .pyAttributeError)
        | some proj =>
          if proj.user_id == user_id then (db, .error .ownProjectOffer)
          else
            ({ db with
                redemptions :=
                  db.redemptions ++ [newRedemption offer_id user_id offer.project_id now]
                offers := db.offers.map (fun o =>
                  if o.id == offer_id then
                    { o with current_redemptions := o.current_redemptions + 1 }
                  else o) },
             .claimed (now + sevenDays))

/-- Does this redemption match the `_fulfill_offer_obligation` query
(`user_id == uid`, `project_id == pid`, `fulfilled == False`)? -/
def obligationPending (uid pid : Nat) (r : RedemptionRec) : Bool :=
  r.user_id == uid && r.project_id == pid && !r.fulfilled

/-- The per-record update of `_fulfill_offer_obligation`: set
`fulfilled = True`, stamp `fulfilled_at`, and set
`karma_penalty_reversed = True` exactly when the penalty was applied and
not yet reversed (so the new flag is `reversed ∨ applied`). -/
def fulfillUpdate (now : Time) (r : RedemptionRec) : RedemptionRec :=
  { r with
      fulfilled := true
      fulfilled_at := some now
      karma_penalty_reversed := r.karma_penalty_reversed || r.karma_penalty_applied }

/-- `_fulfill_offer_obligation(db, user_id, project_id)` (`api.py`):
update every pending redemption of this user for this project; everything
else is untouched. -/
def _fulfill_offer_obligation (db : DB) (uid pid : Nat) (now : Time) : DB :=
  { db with
      redemptions := db.redemptions.map (fun r =>
        if obligationPending uid pid r then fulfillUpdate now r else r) }

/-- The `check_and_apply_karma_penalties` query filter:
`fulfilled == False`, `karma_penalty_applied == False`, `deadline < now`. -/
def overdueUnpenalized (now : Time) (r : RedemptionRec) : Bool :=
  !r.fulfilled && !r.karma_penalty_applied && decide (r.deadline < now)

/-- `check_and_apply_karma_penalties(db)` (`api.py`): set
`karma_penalty_applied = True` on every overdue unpenalized redemption and
return `len(overdue)`. -/
def check_and_apply_karma_penalties (db : DB) (now : Time) : DB × Nat :=
  ({ db with
      redemptions := db.redemptions.map (fun r =>
        if overdueUnpenalized now r then { r with karma_penalty_applied := true }
        else r) },
   db.redemptions.countP (overdueUnpenalized now))

/-! ## Vote endpoints (`api.py`) -/

/-- Result of a vote endpoint: either an error response or
`{"voted": ..., "upvotes": ..., "downvotes": ...}`. -/
inductive VoteOutcome where
  | error (e : ApiErr)
  | result (voted : Option VoteType) (upvotes downvotes : Int)
  deriving DecidableEq, Repr

/-- `vote_post` (`api.py`): the full toggle protocol, which works here
because `models/post.py` gives `Post` both counters and `PostVote` a
`vote_type` column.  Same vote type → delete record, decrement counter
(floored at 0); opposite type → shift one unit and mutate the record in
place; no vote → insert record, increment counter. -/
def vote_post (db : DB) (post_id uid : Nat) (vt : VoteType) : DB × VoteOutcome :=
  match db.posts.find? (fun p => p.id == post_id) with
  | none => (db, .error .notFound)
  | some post =>
    if post.user_id == uid then (db, .error .selfVote)
    else
      match db.post_votes.find? (fun v => v.post_id == post_id && v.user_id == uid) with
      | some ev =>
        if ev.vote_type == vt then
          let post' :=
            match vt with
            | .upvote => { post with upvote_count := max 0 (post.upvote_count - 1) }
            | .downvote => { post with downvote_count := max 0 (post.downvote_count - 1) }
          ({ db with
              posts := db.posts.map (fun p => if p.id == post_id then post' else p)
              post_votes := db.post_votes.eraseP (fun v =>
                v.post_id == post_id && v.user_id == uid) },
           .result none post'.upvote_count post'.downvote_count)
        else
          let post' :=
            match ev.vote_type with
            | .upvote =>
              { post with
                  upvote_count := max 0 (post.upvote_count - 1)
                  downvote_count := post.downvote_count + 1 }
            | .downvote =>
              { post with
                  downvote_count := max 0 (post.downvote_count - 1)
                  upvote_count := post.upvote_count + 1 }
          ({ db with
              posts := db.posts.map (fun p => if p.id == post_id then post' else p)
              post_votes := db.post_votes.map (fun v =>
                if v.post_id == post_id && v.user_id == uid then
                  { v with vote_type := vt }
                else v) },
           .result (some vt) post'.upvote_count post'.downvote_count)
      | none =>
        let post' :=
          match vt with
          | .upvote => { post with upvote_count := post.upvote_count + 1 }
          | .downvote => { post with downvote_count := post.downvote_count + 1 }
        ({ db with
            posts := db.posts.map (fun p => if p.id == post_id then post' else p)
            post_votes := db.post_votes ++ [⟨post_id, uid, vt⟩] },
         .result (some vt) post'.upvote_count post'.downvote_count)

/-- `vote_issue` (`api.py`): after the 404 and self-vote checks, the
handler reads `existing_vote.vote_type` — but `IssueVote`
(`models/issue.py`) defines no `vote_type` column, so that raises
`AttributeError`; with no existing vote it constructs
`IssueVote(..., vote_type=...)`, which the declarative constructor rejects
with `TypeError` (and `Issue` also lacks the `downvote_count` the downvote
branches would touch).  Either way the request fails before any `db.add`
or `db.commit`, so the store is unchanged. -/
def vote_issue (db : DB) (issue_id uid : Nat) (_vt : VoteType) : DB × VoteOutcome :=
  match db.issues.find? (fun i => i.id == issue_id) with
  | none => (db, .error .notFound)
  | some issue =>
    if issue.user_id == some uid then (db, .error .selfVote)
    else
      match db.issue_votes.find? (fun v => v.issue_id == issue_id && v.user_id == uid) with
      | some _ => (db, .error .pyAttributeError)
      | none => (db, .error .pyTypeError)

/-- `vote_response` (`api.py`): same situation as `vote_issue` —
`ResponseVote` (`models/issue.py`) has no `vote_type` column and
`IssueResponse` no `downvote_count`, so every vote attempt past the
validation checks raises and nothing is written. -/
def vote_response (db : DB) (response_id uid : Nat) (_vt : VoteType) : DB × VoteOutcome :=
  match db.responses.find? (fun r => r.id == response_id) with
  | none => (db, .error .notFound)
  | some resp =>
    if resp.user_id == some uid then (db, .error .selfVote)
    else
      match db.response_votes.find? (fun v =>
          v.response_id == response_id && v.user_id == uid) with
      | some _ => (db, .error .pyAttributeError)
      | none => (db, .error .pyTypeError)

/-! ## Rating endpoints (`api.py`) -/

/-- Result of a rating endpoint: `{"your_rating": ..., "rating_count": ...}`
(the float `average_rating` of the JSON response is not modelled). -/
inductive RateOutcome where
  | error (e : ApiErr)
  | ok (your_rating : Int) (rating_count : Nat)
  deriving DecidableEq, Repr

/-- `rate_project` (`api.py`): 404 if the project is absent; reject rating
one's own project; reject stars outside `1..5`; otherwise upsert on the
unique key `(project_id, user_id)` (existing row: overwrite `stars`,
refresh `updated_at`; else insert) and return the recomputed count. -/
def rate_project (db : DB) (now : Time) (project_id uid : Nat) (stars : Int) :
    DB × RateOutcome :=
  match db.projects.find? (fun p => p.id == project_id) with
  | none => (db, .error .notFound)
  | some p =>
    if p.user_id == uid then (db, .error .selfRate)
    else if !(decide (1 ≤ stars) && decide (stars ≤ 5)) then (db, .error .invalidStars)
    else
      let db' :=
        match db.project_ratings.find? (fun x =>
            x.project_id == project_id && x.user_id == uid) with
        | some _ =>
          { db with
              project_ratings := db.project_ratings.map (fun x =>
                if x.project_id == project_id && x.user_id == uid then
                  { x with stars := stars, updated_at := now }
                else x) }
        | none =>
          { db with
              project_ratings := db.project_ratings ++ [⟨project_id, uid, stars, now⟩] }
      (db', .ok stars (db'.project_ratings.countP (fun x => x.project_id == project_id)))

/-- `rate_user` (`api.py`): look the target up by username (404 if
absent); reject rating oneself; reject stars outside `1..5`; otherwise
upsert on the unique key `(rated_user_id, rater_user_id)` and return the
recomputed count. -/
def rate_user (db : DB) (now : Time) (username : String) (rater_uid : Nat)
    (stars : Int) : DB × RateOutcome :=
  match db.users.find? (fun u => u.username == username) with
  | none => (db, .error .notFound)
  | some target =>
    if target.id == rater_uid then (db, .error .selfRate)
    else if !(decide (1 ≤ stars) && decide (stars ≤ 5)) then (db, .error .invalidStars)
    else
      let db' :=
        match db.user_ratings.find? (fun x =>
            x.rated_user_id == target.id && x.rater_user_id == rater_uid) with
        | some _ =>
          { db with
              user_ratings := db.user_ratings.map (fun x =>
                if x.rated_user_id == target.id && x.rater_user_id == rater_uid then
                  { x with stars := stars, updated_at := now }
                else x) }
        | none =>
          { db with
              user_ratings := db.user_ratings ++ [⟨target.id, rater_uid, stars, now⟩] }
      (db', .ok stars (db'.user_ratings.countP (fun x => x.rated_user_id == target.id)))

/-- The issue record built by `create_issue` for a system welcome issue
(`api.py`, the `source_platform="Xdest-System"` branch): the counter
columns keep their defaults of 0. -/
def addIssue (db : DB) (i : IssueRec) : DB :=
  { db with issues := i :: db.issues }

/-! ## Theorems -/

/-- An empty store: no users, no records at all. -/
def emptyDB : DB := ⟨[], [], [], [], [], [], [], [], [], [], [], []⟩

/-- C1: `calculateTestKarma` returns `given`/`received` as the non-system
issue counts over foreign/own projects, `offerPenalties` as the applied
and unreversed penalty count, `pendingObligations` as the unfulfilled
redemption count, `karma = given - received - offerPenalties`,
`isBlocked ↔ karma < -5`; and for a user with no issues and no
redemptions every count is 0, karma is 0, and the user is not blocked. -/
theorem c1_calculate_test_karma (db : DB) (uid : Nat) :
    (calculate_test_karma db uid).given = issuesGiven db uid
    ∧ (calculate_test_karma db uid).received = issuesReceived db uid
    ∧ (calculate_test_karma db uid).offer_penalties = offerPenalties db uid
    ∧ (calculate_test_karma db uid).pending_obligations = pendingObligations db uid
    ∧ (calculate_test_karma db uid).karma =
        ((calculate_test_karma db uid).given : Int)
          - ((calculate_test_karma db uid).received : Int)
          - ((calculate_test_karma db uid).offer_penalties : Int)
    ∧ ((calculate_test_karma db uid).is_blocked = true ↔
        (calculate_test_karma db uid).karma < KARMA_LIMIT)
    ∧ ((∀ i ∈ db.issues, i.user_id ≠ some uid ∧
          ∀ p ∈ db.projects, i.project_id = some p.id → p.user_id ≠ uid) →
       (∀ rd ∈ db.redemptions, rd.user_id ≠ uid) →
       (calculate_test_karma db uid).given = 0
       ∧ (calculate_test_karma db uid).received = 0
       ∧ (calculate_test_karma db uid).offer_penalties = 0
       ∧ (calculate_test_karma db uid).pending_obligations = 0
       ∧ (calculate_test_karma db uid).karma = 0
       ∧ (calculate_test_karma db uid).is_blocked = false) := by
  refine ⟨rfl, rfl, rfl, rfl, rfl, by simp [calculate_test_karma], ?_⟩
  intro hIss hRed
  have hg : issuesGiven db uid = 0 := by
    apply List.sum_eq_zero
    intro x hx
    simp only [issuesGiven, List.mem_map] at hx
    obtain ⟨i, hi, rfl⟩ := hx
    have h1 : (i.user_id == some uid) = false := by
      simp [(hIss i hi).1]
    simp [h1]
  have hr : issuesReceived db uid = 0 := by
    apply List.sum_eq_zero
    intro x hx
    simp only [issuesReceived, List.mem_map] at hx
    obtain ⟨i, hi, rfl⟩ := hx
    split
    · apply List.countP_eq_zero.mpr
      intro p hp hcond
      simp only [Bool.and_eq_true, beq_iff_eq] at hcond
      exact (hIss i hi).2 p hp hcond.1 hcond.2
    · rfl
  have hp : offerPenalties db uid = 0 := by
    apply List.countP_eq_zero.mpr
    intro rd hrd hcond
    simp only [Bool.and_eq_true, beq_iff_eq] at hcond
    exact hRed rd hrd hcond.1.1
  have hpend : pendingObligations db uid = 0 := by
    apply List.countP_eq_zero.mpr
    intro rd hrd hcond
    simp only [Bool.and_eq_true, beq_iff_eq] at hcond
    exact hRed rd hrd hcond.1
  refine ⟨hg, hr, hp, hpend, ?_, ?_⟩
  · simp [calculate_test_karma, hg, hr, hp]
  · simp [calculate_test_karma, hg, hr, hp, KARMA_LIMIT]

/-- Witness for C1 at the empty store and user 0: zero activity, karma 0,
not blocked, and the karma identity holds. -/
theorem c1_witness :
    (calculate_test_karma emptyDB 0).karma = 0
    ∧ (calculate_test_karma emptyDB 0).is_blocked = false
    ∧ (calculate_test_karma emptyDB 0).given = 0 := by
  have h := c1_calculate_test_karma emptyDB 0
  have hz := h.2.2.2.2.2.2 (by simp [emptyDB]) (by simp [emptyDB])
  exact ⟨hz.2.2.2.2.1, hz.2.2.2.2.2, hz.1⟩

/-- A map that fixes every element of a list is the identity. -/
theorem map_eq_self_of_fix {α : Type} (l : List α) (f : α → α)
    (h : ∀ x ∈ l, f x = x) : l.map f = l := by
  induction l with
  | nil => rfl
  | cons a t ih =>
    simp only [List.map_cons, h a (by simp)]
    rw [ih (fun x hx => h x (by simp [hx]))]

/-- C10: `Offer.is_valid` holds iff the offer is active, `valid_until` is
absent or not yet passed, and the redemption cap is not reached (where a
cap value of 0 is treated as no cap at all); `valid_from` is never
consulted, so changing it never changes validity. -/
theorem c10_offer_is_valid (o : OfferRec) (now : Time) :
    (offerIsValid o now = true ↔
      (o.is_active = true
       ∧ (∀ vu, o.valid_until = some vu → ¬ now > vu)
       ∧ (∀ m, o.max_redemptions = some m → m ≠ 0 → o.current_redemptions < m)))
    ∧ (∀ t, offerIsValid { o with valid_from := t } now = offerIsValid o now)
    ∧ (o.max_redemptions = some 0 →
        offerIsValid o now = offerIsValid { o with max_redemptions := none } now) := by
  refine ⟨?_, fun t => rfl, ?_⟩
  · obtain ⟨oid, opid, mr, cr, vf, vu, ia⟩ := o
    cases ia <;> cases vu <;> cases mr <;>
      simp [offerIsValid] <;> omega
  · intro h
    obtain ⟨oid, opid, mr, cr, vf, vu, ia⟩ := o
    simp only at h
    subst h
    simp [offerIsValid]

/-- A concrete offer: inactive checks aside, its `valid_from` lies in the
future (1000 > 0) and its cap is the degenerate `max_redemptions = 0`. -/
def c10Offer : OfferRec :=
  { id := 1, project_id := 1, max_redemptions := some 0,
    current_redemptions := 42, valid_from := 1000, valid_until := none,
    is_active := true }

/-- Witness for C10: the offer with future `valid_from` and a zero cap is
valid at time 0, and behaves exactly like an uncapped offer. -/
theorem c10_witness :
    offerIsValid c10Offer 0 = offerIsValid { c10Offer with max_redemptions := none } 0
    ∧ offerIsValid c10Offer 0 = true :=
  ⟨(c10_offer_is_valid c10Offer 0).2.2 rfl,
   (c10_offer_is_valid c10Offer 0).1.mpr
     ⟨rfl, by simp [c10Offer], by simp [c10Offer]⟩⟩

/-- A sweep over a store with no overdue unpenalized redemption changes
nothing and reports 0. -/
theorem sweep_noop (db : DB) (now : Time)
    (h : ∀ r ∈ db.redemptions, overdueUnpenalized now r = false) :
    check_and_apply_karma_penalties db now = (db, 0) := by
  have hmap : db.redemptions.map (fun r =>
      if overdueUnpenalized now r then { r with karma_penalty_applied := true }
      else r) = db.redemptions :=
    map_eq_self_of_fix _ _ (fun r hr => by simp [h r hr])
  have hcnt : db.redemptions.countP (overdueUnpenalized now) = 0 :=
    List.countP_eq_zero.mpr (fun r hr => by simp [h r hr])
  unfold check_and_apply_karma_penalties
  rw [hmap, hcnt]

/-- C7: the sweep returns the number of redemptions that are unfulfilled,
unpenalized and past their deadline; it sets `karma_penalty_applied` on
exactly those records, changing no other field (in particular not
`karma_penalty_reversed`), and leaves every other record unchanged; a
second run straight after processes 0 and changes nothing. -/
theorem c7_check_and_apply_karma_penalties (db : DB) (now : Time) :
    (check_and_apply_karma_penalties db now).2
        = db.redemptions.countP (overdueUnpenalized now)
    ∧ (check_and_apply_karma_penalties db now).1.redemptions.length
        = db.redemptions.length
    ∧ (∀ (i : Nat) r, db.redemptions[i]? = some r →
        (overdueUnpenalized now r = true →
          (check_and_apply_karma_penalties db now).1.redemptions[i]?
            = some { r with karma_penalty_applied := true })
        ∧ (overdueUnpenalized now r = false →
          (check_and_apply_karma_penalties db now).1.redemptions[i]? = some r))
    ∧ check_and_apply_karma_penalties
        (check_and_apply_karma_penalties db now).1 now
        = ((check_and_apply_karma_penalties db now).1, 0) := by
  refine ⟨rfl, by simp [check_and_apply_karma_penalties], ?_, ?_⟩
  · intro i r hr
    constructor
    · intro hov
      simp [check_and_apply_karma_penalties, List.getElem?_map, hr, hov]
    · intro hov
      simp [check_and_apply_karma_penalties, List.getElem?_map, hr, hov]
  · have hfix : ∀ r ∈ (check_and_apply_karma_penalties db now).1.redemptions,
        overdueUnpenalized now r = false := by
      intro r hr
      simp only [check_and_apply_karma_penalties, List.mem_map] at hr
      obtain ⟨r0, _, rfl⟩ := hr
      by_cases h0 : overdueUnpenalized now r0 = true
      · rw [if_pos h0]
        simp [overdueUnpenalized]
      · simp only [Bool.not_eq_true] at h0
        rw [if_neg (by simp [h0])]
        exact h0
    exact sweep_noop _ now hfix

/-- A store with a single redemption, claimed at time 0 and overdue at
time `sevenDays + 1`. -/
def c7DB : DB :=
  { emptyDB with
      redemptions := [⟨20, 2, 10, 0, sevenDays, false, none, false, false⟩] }

/-- Witness for C7 at `c7DB` and `now = sevenDays + 1`: the single overdue
redemption is penalized, the sweep reports 1, and the immediate re-run
reports 0 without further changes. -/
theorem c7_witness :
    (check_and_apply_karma_penalties c7DB (sevenDays + 1)).1.redemptions[0]?
      = some ⟨20, 2, 10, 0, sevenDays, false, none, true, false⟩
    ∧ (check_and_apply_karma_penalties c7DB (sevenDays + 1)).2 = 1
    ∧ check_and_apply_karma_penalties
        (check_and_apply_karma_penalties c7DB (sevenDays + 1)).1 (sevenDays + 1)
        = ((check_and_apply_karma_penalties c7DB (sevenDays + 1)).1, 0) := by
  have h := c7_check_and_apply_karma_penalties c7DB (sevenDays + 1)
  refine ⟨?_, ?_, h.2.2.2⟩
  · exact (h.2.2.1 0 ⟨20, 2, 10, 0, sevenDays, false, none, false, false⟩ rfl).1
      (by decide)
  · rw [h.1]; decide

/-- C6: `fulfillObligation` marks every pending redemption of this user
for this exact project fulfilled, stamps `fulfilled_at`, sets
`karma_penalty_reversed` on each penalized one (and only flips that flag:
`reversed ∨ applied`), leaves every other redemption byte-for-byte
unchanged, and is a no-op when nothing is pending. -/
theorem c6_fulfill_offer_obligation (db : DB) (uid pid : Nat) (now : Time) :
    (_fulfill_offer_obligation db uid pid now).redemptions.length
        = db.redemptions.length
    ∧ (∀ (i : Nat) r, db.redemptions[i]? = some r →
        (obligationPending uid pid r = true →
          (_fulfill_offer_obligation db uid pid now).redemptions[i]?
            = some { r with
                fulfilled := true
                fulfilled_at := some now
                karma_penalty_reversed :=
                  r.karma_penalty_reversed || r.karma_penalty_applied })
        ∧ (obligationPending uid pid r = false →
          (_fulfill_offer_obligation db uid pid now).redemptions[i]? = some r))
    ∧ ((∀ r ∈ db.redemptions, obligationPending uid pid r = false) →
        _fulfill_offer_obligation db uid pid now = db) := by
  refine ⟨by simp [_fulfill_offer_obligation], ?_, ?_⟩
  · intro i r hr
    constructor
    · intro hob
      simp [_fulfill_offer_obligation, List.getElem?_map, hr, hob, fulfillUpdate]
    · intro hob
      simp [_fulfill_offer_obligation, List.getElem?_map, hr, hob]
  · intro hnone
    have hmap : db.redemptions.map (fun r =>
        if obligationPending uid pid r then fulfillUpdate now r else r)
        = db.redemptions :=
      map_eq_self_of_fix _ _ (fun r hr => by simp [hnone r hr])
    unfold _fulfill_offer_obligation
    rw [hmap]

/-- A store with two pending redemptions of user 2 on project 10 (one
already penalized), one fulfilled redemption, and one pending redemption
on a different project. -/
def c6DB : DB :=
  { emptyDB with
      redemptions :=
        [⟨20, 2, 10, 0, sevenDays, false, none, false, false⟩,
         ⟨21, 2, 10, 5, sevenDays, false, none, true, false⟩,
         ⟨22, 2, 10, 5, sevenDays, true, some 9, false, false⟩,
         ⟨23, 2, 11, 5, sevenDays, false, none, false, false⟩] }

/-- Witness for C6: fulfilling user 2's obligation on project 10 marks
both pending redemptions (reversing the applied penalty on the second),
leaves the fulfilled one and the other-project one unchanged, and a store
without pending matches is untouched. -/
theorem c6_witness :
    (_fulfill_offer_obligation c6DB 2 10 100).redemptions[0]?
      = some ⟨20, 2, 10, 0, sevenDays, true, some 100, false, false⟩
    ∧ (_fulfill_offer_obligation c6DB 2 10 100).redemptions[1]?
      = some ⟨21, 2, 10, 5, sevenDays, true, some 100, true, true⟩
    ∧ (_fulfill_offer_obligation c6DB 2 10 100).redemptions[2]?
      = some ⟨22, 2, 10, 5, sevenDays, true, some 9, false, false⟩
    ∧ (_fulfill_offer_obligation c6DB 2 10 100).redemptions[3]?
      = some ⟨23, 2, 11, 5, sevenDays, false, none, false, false⟩
    ∧ _fulfill_offer_obligation emptyDB 2 10 100 = emptyDB := by
  have h := c6_fulfill_offer_obligation c6DB 2 10 100
  refine ⟨?_, ?_, ?_, ?_, ?_⟩
  · exact (h.2.1 0 _ rfl).1 (by decide)
  · exact (h.2.1 1 _ rfl).1 (by decide)
  · exact (h.2.1 2 _ rfl).2 (by decide)
  · exact (h.2.1 3 _ rfl).2 (by decide)
  · exact (c6_fulfill_offer_obligation emptyDB 2 10 100).2.2 (by simp [emptyDB])

/-- C2: creating a system-tagged issue (`source_platform = "Xdest-System"`,
counters at their creation defaults of 0) changes no user's karma `given`
or `received` component, and no user's leaderboard `total_score`
(including the helpful-vote and GitHub-reaction sums, which range over all
of the author's issues). -/
theorem c2_system_issue_neutral (db : DB) (i : IssueRec) (uid : Nat)
    (hsys : i.source_platform = sysPlatform)
    (hh : i.helpful_count = 0)
    (hgr : i.github_reactions = 0)
    (hgn : i.github_negative_reactions = 0) :
    (calculate_test_karma (addIssue db i) uid).given
        = (calculate_test_karma db uid).given
    ∧ (calculate_test_karma (addIssue db i) uid).received
        = (calculate_test_karma db uid).received
    ∧ totalScore (addIssue db i) uid = totalScore db uid := by
  have hgiven : issuesGiven (addIssue db i) uid = issuesGiven db uid := by
    simp [issuesGiven, addIssue, hsys]
  have hrecv : issuesReceived (addIssue db i) uid = issuesReceived db uid := by
    simp [issuesReceived, addIssue, hsys]
  have hih : issueHelpful (addIssue db i) uid = issueHelpful db uid := by
    simp only [issueHelpful, addIssue, List.filter_cons]
    split
    · simp [hh]
    · rfl
  have hgp : githubPositive (addIssue db i) uid = githubPositive db uid := by
    simp only [githubPositive, addIssue, List.filter_cons]
    split
    · simp [hgr]
    · rfl
  have hgneg : githubNegative (addIssue db i) uid = githubNegative db uid := by
    simp only [githubNegative, addIssue, List.filter_cons]
    split
    · simp [hgn]
    · rfl
  refine ⟨hgiven, hrecv, ?_⟩
  unfold totalScore
  rw [hgiven, hrecv, hih, hgp, hgneg]
  rfl

/-- A store with two users where user 1 already has one ordinary issue on
user 2's project. -/
def c2DB : DB :=
  { emptyDB with
      users := [⟨1, "alice"⟩, ⟨2, "bob"⟩]
      projects := [⟨10, 2⟩]
      issues := [⟨1, some 10, some 1, "Xdest", 0, 0, 0⟩] }

/-- The welcome issue `create_project` plants on a fresh project of
user 2, authored by the founder account (user id 2 in the source). -/
def c2SystemIssue : IssueRec :=
  ⟨2, some 10, some 2, sysPlatform, 0, 0, 0⟩

/-- Witness for C2: adding the system welcome issue to `c2DB` changes
neither karma component of user 1 nor user 1's total score. -/
theorem c2_witness :
    (calculate_test_karma (addIssue c2DB c2SystemIssue) 1).given
        = (calculate_test_karma c2DB 1).given
    ∧ totalScore (addIssue c2DB c2SystemIssue) 1 = totalScore c2DB 1 :=
  ⟨(c2_system_issue_neutral c2DB c2SystemIssue 1 rfl rfl rfl rfl).1,
   (c2_system_issue_neutral c2DB c2SystemIssue 1 rfl rfl rfl rfl).2.2⟩

/-- A store where user 2 already holds the single redemption slot of
offer 20 (cap `max_redemptions = 1` reached, `current_redemptions = 1`),
on project 10 owned by user 1. -/
def c4DB : DB :=
  { emptyDB with
      users := [⟨1, "alice"⟩, ⟨2, "bob"⟩]
      projects := [⟨10, 1⟩]
      offers := [⟨20, 10, some 1, 1, 0, none, true⟩]
      redemptions := [⟨20, 2, 10, 0, sevenDays, false, none, false, false⟩] }

/-- Counterexample to C4 as stated: user 2's redemption for offer 20
exists, yet re-claiming raises the "offer no longer available" error
instead of returning the existing redemption's state — `claim_offer`
checks `is_valid` (here false, the cap that user 2's own claim filled)
before looking for the existing redemption. -/
theorem c4_counterexample :
    c4DB.redemptions.find? (fun r => r.offer_id == 20 && r.user_id == 2)
      = some ⟨20, 2, 10, 0, sevenDays, false, none, false, false⟩
    ∧ claim_offer c4DB 100 20 2 = (c4DB, .error .offerNotAvailable) :=
  ⟨rfl, rfl⟩

/-- C4 amended: when the offer is found and still currently valid, a
claim by a user with an existing redemption for that offer returns the
existing redemption's state — original deadline and fulfilled flag —
creates no new redemption and leaves the offer's `current_redemptions`
unchanged (the store is returned untouched). -/
theorem c4_amended_idempotent_claim (db : DB) (now : Time) (oid uid : Nat)
    (o : OfferRec) (rd : RedemptionRec)
    (ho : db.offers.find? (fun x => x.id == oid) = some o)
    (hv : offerIsValid o now = true)
    (hr : db.redemptions.find? (fun r => r.offer_id == oid && r.user_id == uid)
            = some rd) :
    claim_offer db now oid uid = (db, .alreadyClaimed rd.deadline rd.fulfilled) := by
  simp [claim_offer, ho, hv, hr]

/-- A store like `c4DB` but with an uncapped offer, so the offer stays
valid after user 2's claim. -/
def c4ValidDB : DB :=
  { emptyDB with
      users := [⟨1, "alice"⟩, ⟨2, "bob"⟩]
      projects := [⟨10, 1⟩]
      offers := [⟨20, 10, some 5, 1, 0, none, true⟩]
      redemptions := [⟨20, 2, 10, 0, sevenDays, false, none, false, false⟩] }

/-- Witness for the amended C4: re-claiming the still-valid offer returns
the original deadline (`sevenDays`, from the first claim at time 0) and
touches nothing, even though `now = 100`. -/
theorem c4_witness :
    claim_offer c4ValidDB 100 20 2
      = (c4ValidDB, .alreadyClaimed sevenDays false) :=
  c4_amended_idempotent_claim c4ValidDB 100 20 2
    ⟨20, 10, some 5, 1, 0, none, true⟩
    ⟨20, 2, 10, 0, sevenDays, false, none, false, false⟩ rfl rfl rfl

/-- C5: with the offer found, (a) if it is not currently valid the claim
fails for every user with the "no longer available" error and an untouched
store; (b) a user with no prior redemption on a valid offer of a project
they do not own gets exactly one new redemption — `claimed_at = now`,
`deadline = now + 7 days`, unfulfilled, both penalty flags false — and the
offer's `current_redemptions` rises by 1 (no other offer or table is
touched); (c) the project owner's claim fails with an untouched store. -/
theorem c5_claim_offer (db : DB) (now : Time) (oid uid : Nat) (o : OfferRec)
    (ho : db.offers.find? (fun x => x.id == oid) = some o) :
    (offerIsValid o now = false →
      claim_offer db now oid uid = (db, .error .offerNotAvailable))
    ∧ (∀ p, offerIsValid o now = true →
        db.redemptions.find? (fun r => r.offer_id == oid && r.user_id == uid) = none →
        db.projects.find? (fun q => q.id == o.project_id) = some p →
        (p.user_id = uid →
          claim_offer db now oid uid = (db, .error .ownProjectOffer))
        ∧ (p.user_id ≠ uid →
            (claim_offer db now oid uid).2 = .claimed (now + sevenDays)
            ∧ (claim_offer db now oid uid).1.redemptions
                = db.redemptions ++ [newRedemption oid uid o.project_id now]
            ∧ (claim_offer db now oid uid).1.offers.find? (fun x => x.id == oid)
                = some { o with current_redemptions := o.current_redemptions + 1 }
            ∧ (claim_offer db now oid uid).1.offers.length = db.offers.length
            ∧ (claim_offer db now oid uid).1.users = db.users
            ∧ (claim_offer db now oid uid).1.issues = db.issues
            ∧ (claim_offer db now oid uid).1.projects = db.projects)) := by
  constructor
  · intro hv
    simp [claim_offer, ho, hv]
  · intro p hv hnone hp
    constructor
    · intro hown
      simp [claim_offer, ho, hv, hnone, hp, hown]
    · intro hown
      have hne : (p.user_id == uid) = false := by simp [hown]
      have hoid := List.find?_some ho
      have hres : claim_offer db now oid uid =
          ({ db with
              redemptions :=
                db.redemptions ++ [newRedemption oid uid o.project_id now]
              offers := db.offers.map (fun x =>
                if x.id == oid then
                  { x with current_redemptions := x.current_redemptions + 1 }
                else x) },
           .claimed (now + sevenDays)) := by
        simp [claim_offer, ho, hv, hnone, hp, hne]
      refine ⟨by rw [hres], by rw [hres], ?_, by rw [hres]; simp, by rw [hres],
        by rw [hres], by rw [hres]⟩
      rw [hres]
      show (db.offers.map _).find? _ = _
      rw [List.find?_map]
      have hcomp : ((fun x : OfferRec => x.id == oid) ∘ (fun x : OfferRec =>
          if x.id == oid then
            { x with current_redemptions := x.current_redemptions + 1 }
          else x)) = (fun x : OfferRec => x.id == oid) := by
        funext x
        by_cases hx : (x.id == oid) = true
        · simp only [beq_iff_eq] at hx
          simp [hx]
        · simp only [Bool.not_eq_true, beq_eq_false_iff_ne] at hx
          simp [hx]
      rw [hcomp, ho]
      have hoid' : o.id = oid := by simpa using hoid
      simp [hoid']

/-- A fresh claim scenario: user 2, no prior redemption, valid uncapped
offer 20 on project 10 owned by user 1, claimed at time 1000. -/
def c5DB : DB :=
  { emptyDB with
      users := [⟨1, "alice"⟩, ⟨2, "bob"⟩]
      projects := [⟨10, 1⟩]
      offers := [⟨20, 10, some 5, 0, 0, none, true⟩] }

/-- Witness for C5: the fresh claim at time 1000 creates the single
redemption with deadline `1000 + sevenDays` and bumps the counter to 1;
the owner's claim and the invalid-offer claim both fail. -/
theorem c5_witness :
    (claim_offer c5DB 1000 20 2).1.redemptions
      = [newRedemption 20 2 10 1000]
    ∧ (claim_offer c5DB 1000 20 2).2 = .claimed (1000 + sevenDays)
    ∧ (claim_offer c5DB 1000 20 2).1.offers.find? (fun x => x.id == 20)
      = some ⟨20, 10, some 5, 1, 0, none, true⟩
    ∧ claim_offer c5DB 1000 20 1 = (c5DB, .error .ownProjectOffer)
    ∧ claim_offer c4DB 100 20 9 = (c4DB, .error .offerNotAvailable) := by
  have h := c5_claim_offer c5DB 1000 20 2 ⟨20, 10, some 5, 0, 0, none, true⟩ rfl
  have hs := (h.2 ⟨10, 1⟩ rfl rfl rfl).2 (by decide)
  have h1 := c5_claim_offer c5DB 1000 20 1 ⟨20, 10, some 5, 0, 0, none, true⟩ rfl
  have h9 := c5_claim_offer c4DB 100 20 9 ⟨20, 10, some 1, 1, 0, none, true⟩ rfl
  exact ⟨hs.2.1, hs.1, hs.2.2.1,
    (h1.2 ⟨10, 1⟩ rfl rfl rfl).1 rfl,
    h9.1 rfl⟩

/-- A store with an issue and a response, both authored by user 1, and no
votes yet; user 2 is an eligible voter. -/
def c8DB : DB :=
  { emptyDB with
      users := [⟨1, "alice"⟩, ⟨2, "bob"⟩]
      projects := [⟨10, 1⟩]
      issues := [⟨1, some 10, some 1, "Xdest", 0, 0, 0⟩]
      responses := [⟨1, some 1, 0, 0⟩] }

/-- Like `c8DB` but with a pre-existing issue-vote and response-vote row
for user 2 (only reachable through an external write, since the endpoints
themselves can never insert one). -/
def c8DBWithVotes : DB :=
  { c8DB with
      issue_votes := [⟨1, 2⟩]
      response_votes := [⟨1, 2⟩] }

/-- C8 evaluated at a failing input: user 2's first upvote on issue 1 and
on response 1 both die with `TypeError` (the `IssueVote`/`ResponseVote`
constructors reject the unmapped `vote_type` keyword), recording no vote
and changing nothing; were a vote row present, reading its missing
`vote_type` attribute would raise `AttributeError` instead.  The toggle
round-trip the claim describes can therefore never take place on issues or
responses. -/
theorem c8_vote_issue_response_crash :
    vote_issue c8DB 1 2 .upvote = (c8DB, .error .pyTypeError)
    ∧ vote_response c8DB 1 2 .upvote = (c8DB, .error .pyTypeError)
    ∧ vote_issue c8DBWithVotes 1 2 .upvote = (c8DBWithVotes, .error .pyAttributeError)
    ∧ vote_response c8DBWithVotes 1 2 .upvote
        = (c8DBWithVotes, .error .pyAttributeError) :=
  ⟨rfl, rfl, rfl, rfl⟩

/-- C9: a self-action is always rejected with an error and the untouched
store — voting one's own issue, response or post, rating one's own
project, and rating oneself. -/
theorem c9_self_actions_rejected (db : DB) :
    (∀ iid uid vt i, db.issues.find? (fun x => x.id == iid) = some i →
        i.user_id = some uid →
        vote_issue db iid uid vt = (db, .error .selfVote))
    ∧ (∀ rid uid vt r, db.responses.find? (fun x => x.id == rid) = some r →
        r.user_id = some uid →
        vote_response db rid uid vt = (db, .error .selfVote))
    ∧ (∀ pid uid vt p, db.posts.find? (fun x => x.id == pid) = some p →
        p.user_id = uid →
        vote_post db pid uid vt = (db, .error .selfVote))
    ∧ (∀ now pid uid stars p, db.projects.find? (fun x => x.id == pid) = some p →
        p.user_id = uid →
        rate_project db now pid uid stars = (db, .error .selfRate))
    ∧ (∀ now uname uid stars u, db.users.find? (fun x => x.username == uname) = some u →
        u.id = uid →
        rate_user db now uname uid stars = (db, .error .selfRate)) := by
  refine ⟨?_, ?_, ?_, ?_, ?_⟩
  · intro iid uid vt i hi hself
    simp [vote_issue, hi, hself]
  · intro rid uid vt r hr hself
    simp [vote_response, hr, hself]
  · intro pid uid vt p hp hself
    simp [vote_post, hp, hself]
  · intro now pid uid stars p hp hself
    simp [rate_project, hp, hself]
  · intro now uname uid stars u hu hself
    simp [rate_user, hu, hself]

/-- A store where user 1 owns project 10, authored issue 1, response 1
and post 1. -/
def c9DB : DB :=
  { emptyDB with
      users := [⟨1, "alice"⟩, ⟨2, "bob"⟩]
      projects := [⟨10, 1⟩]
      issues := [⟨1, some 10, some 1, "Xdest", 0, 0, 0⟩]
      responses := [⟨1, some 1, 0, 0⟩]
      posts := [⟨1, 1, 0, 0⟩] }

/-- Witness for C9: each of user 1's five self-actions on `c9DB` is
rejected with the store unchanged. -/
theorem c9_witness :
    vote_issue c9DB 1 1 .upvote = (c9DB, .error .selfVote)
    ∧ vote_response c9DB 1 1 .downvote = (c9DB, .error .selfVote)
    ∧ vote_post c9DB 1 1 .upvote = (c9DB, .error .selfVote)
    ∧ rate_project c9DB 0 10 1 5 = (c9DB, .error .selfRate)
    ∧ rate_user c9DB 0 "alice" 1 4 = (c9DB, .error .selfRate) := by
  have h := c9_self_actions_rejected c9DB
  exact ⟨h.1 1 1 .upvote _ rfl rfl,
    h.2.1 1 1 .downvote _ rfl rfl,
    h.2.2.1 1 1 .upvote _ rfl rfl,
    h.2.2.2.1 0 10 1 5 _ rfl rfl,
    h.2.2.2.2 0 "alice" 1 4 _ rfl rfl⟩

/-- Stamping ranks preserves the list length. -/
theorem stampRanks_length (l : List LBEntry) (n : Nat) :
    (stampRanks n l).length = l.length := by
  induction l generalizing n with
  | nil => rfl
  | cons e es ih => simp [stampRanks, ih]

/-- The `i`-th stamped entry is the `i`-th original entry with rank
`n + i`. -/
theorem stampRanks_getElem (l : List LBEntry) (n i : Nat) :
    (stampRanks n l)[i]? = l[i]?.map (fun e => { e with rank := n + i }) := by
  induction l generalizing n i with
  | nil => simp [stampRanks]
  | cons e es ih =>
    cases i with
    | zero => simp [stampRanks]
    | succ j =>
      simp only [stampRanks, List.getElem?_cons_succ, ih (n + 1) j]
      have hadd : n + 1 + j = n + (j + 1) := by omega
      rw [hadd]

/-- Every stamped entry descends from an original entry with the same
user and score. -/
theorem mem_stampRanks {e' : LBEntry} {l : List LBEntry} {n : Nat}
    (h : e' ∈ stampRanks n l) :
    ∃ e ∈ l, e'.user_id = e.user_id ∧ e'.total_score = e.total_score := by
  induction l generalizing n with
  | nil => simp [stampRanks] at h
  | cons e es ih =>
    simp only [stampRanks, List.mem_cons] at h
    rcases h with h | h
    · exact ⟨e, by simp, by simp [h], by simp [h]⟩
    · obtain ⟨a, ha, h1, h2⟩ := ih h
      exact ⟨a, List.mem_cons_of_mem _ ha, h1, h2⟩

/-- Stamping ranks does not disturb the descending-score order. -/
theorem pairwise_stampRanks {l : List LBEntry} {n : Nat}
    (h : List.Pairwise (fun a b => b.total_score ≤ a.total_score) l) :
    List.Pairwise (fun a b => b.total_score ≤ a.total_score) (stampRanks n l) := by
  induction l generalizing n with
  | nil => exact List.Pairwise.nil
  | cons e es ih =>
    rw [List.pairwise_cons] at h
    obtain ⟨hhead, htail⟩ := h
    simp only [stampRanks]
    rw [List.pairwise_cons]
    refine ⟨?_, ih htail⟩
    intro b hb
    obtain ⟨a, ha, _, hts⟩ := mem_stampRanks hb
    show b.total_score ≤ e.total_score
    rw [hts]
    exact hhead a ha

/-- C3: every entry of `getLeaderboard` carries
`total_score = solutions + helpful-on-responses + helpful-on-issues +
github⁺ − github⁻ + five-star ratings + karma.given + karma.received −
karma.offerPenalties`; a user appears on the (pre-truncation) leaderboard
iff `total_score > 0` or they have any issues, responses or karma
activity; the output is sorted descending by `total_score`, holds at most
50 entries, each entry stamped with its 1-based rank, and every output
entry descends from a leaderboard entry. -/
theorem c3_get_leaderboard (db : DB) :
    (∀ u ∈ db.users,
      ((∃ e ∈ leaderboardFull db, e.user_id = u.id) ↔
        (totalScore db u.id > 0 ∨ totalIssues db u.id > 0
          ∨ totalResponses db u.id > 0 ∨ issuesGiven db u.id > 0
          ∨ issuesReceived db u.id > 0)))
    ∧ (∀ e ∈ get_leaderboard db,
        e.total_score =
          solutionsMarked db e.user_id + responseHelpful db e.user_id
            + issueHelpful db e.user_id + githubPositive db e.user_id
            - githubNegative db e.user_id
            + (fiveStarRatings db e.user_id : Int)
            + ((calculate_test_karma db e.user_id).given : Int)
            + ((calculate_test_karma db e.user_id).received : Int)
            - ((calculate_test_karma db e.user_id).offer_penalties : Int))
    ∧ List.Pairwise (fun a b => b.total_score ≤ a.total_score) (get_leaderboard db)
    ∧ (get_leaderboard db).length ≤ 50
    ∧ (∀ (i : Nat) e, (get_leaderboard db)[i]? = some e → e.rank = i + 1)
    ∧ (∀ e ∈ get_leaderboard db, ∃ e' ∈ leaderboardFull db,
        e.user_id = e'.user_id ∧ e.total_score = e'.total_score) := by
  have hprov : ∀ e ∈ get_leaderboard db, ∃ e' ∈ leaderboardFull db,
      e.user_id = e'.user_id ∧ e.total_score = e'.total_score := by
    intro e he
    simp only [get_leaderboard] at he
    obtain ⟨e', he', hu, hts⟩ := mem_stampRanks he
    have he'' : e' ∈ List.insertionSort lbGe (leaderboardFull db) :=
      List.take_subset _ _ he'
    exact ⟨e', (List.mem_insertionSort lbGe).mp he'', hu, hts⟩
  refine ⟨?_, ?_, ?_, ?_, ?_, hprov⟩
  · intro u hu
    constructor
    · rintro ⟨e, he, heq⟩
      simp only [leaderboardFull, List.mem_map, List.mem_filter] at he
      obtain ⟨u', ⟨hu', hinc⟩, rfl⟩ := he
      simp only at heq
      rw [heq] at hinc
      simp only [lbIncluded, Bool.or_eq_true, decide_eq_true_eq] at hinc
      tauto
    · intro hcond
      have hinc : lbIncluded db u.id = true := by
        simp only [lbIncluded, Bool.or_eq_true, decide_eq_true_eq]
        tauto
      exact ⟨⟨u.id, totalScore db u.id, 0⟩,
        List.mem_map.mpr ⟨u, List.mem_filter.mpr ⟨hu, hinc⟩, rfl⟩, rfl⟩
  · intro e he
    obtain ⟨e', he', hu, hts⟩ := hprov e he
    simp only [leaderboardFull, List.mem_map, List.mem_filter] at he'
    obtain ⟨u', ⟨_, _⟩, rfl⟩ := he'
    rw [hts, hu]
    rfl
  · have hs := List.sorted_insertionSort lbGe (leaderboardFull db)
    have ht : List.Pairwise lbGe
        ((List.insertionSort lbGe (leaderboardFull db)).take 50) :=
      hs.sublist (List.take_sublist ..)
    exact pairwise_stampRanks ht
  · simp only [get_leaderboard, stampRanks_length, List.length_take]
    exact min_le_left ..
  · intro i e he
    simp only [get_leaderboard, stampRanks_getElem, Option.map_eq_some'] at he
    obtain ⟨a, _, rfl⟩ := he
    simp [Nat.add_comm]

/-- A store where user 1 has written one ordinary issue on user 2's
project: both users have karma activity and total score 1. -/
def c3DB : DB :=
  { emptyDB with
      users := [⟨1, "alice"⟩, ⟨2, "bob"⟩]
      projects := [⟨10, 2⟩]
      issues := [⟨1, some 10, some 1, "Xdest", 0, 0, 0⟩] }

/-- The first output entry of `get_leaderboard c3DB`: user 1, score 1,
rank 1. -/
def c3TopEntry : LBEntry := ⟨1, 1, 1⟩

/-- Witness for C3 at `c3DB`: user 1 appears on the leaderboard (score
1 > 0), the output respects the 50-entry cap, and the first entry's rank
is 1. -/
theorem c3_witness :
    (∃ e ∈ leaderboardFull c3DB, e.user_id = 1)
    ∧ (get_leaderboard c3DB).length ≤ 50
    ∧ c3TopEntry.rank = 0 + 1 := by
  have h := c3_get_leaderboard c3DB
  exact ⟨(h.1 ⟨1, "alice"⟩ (by decide)).mpr (by decide),
    h.2.2.2.1,
    h.2.2.2.2.1 0 c3TopEntry (by decide)⟩

end Xdest
